import Mathlib

/-!
Shallow embedding of the adaptive viva session controller of the Evater
repository: the next-step policy `viva_router` (src/app/services.py), the
running-mean score aggregation of the websocket turn loop
(src/app/routers/viva_router.py), the accumulate-then-divide aggregation
variant of the legacy monolith (src/application.py), and the per-concept
turn loop with its exit sentinel, turn-cap break and chapter-lookup guard.

Scores are modelled as exact rationals (the Python code divides ints,
producing floats; the algorithmic content — the recurrences and the
comparisons against the integer thresholds 6 and 8 — is captured over ℚ).
External capabilities (question generation, transcription, evaluation,
feedback synthesis) are oracles: their per-turn results are inputs.
-/

namespace Evater

/-- EvaluationOutput from src/application.py (also used by
src/app/models.py): the (correctness, depth, clarity) score triple.
The evaluator emits ints in 1..10; the aggregated running mean is a
rational, so the fields are ℚ here. The sentinel (0,0,0) means
no turns scored yet. -/
structure EvaluationOutput where
  correctness : ℚ
  depth : ℚ
  clarity : ℚ
deriving DecidableEq, Repr

/-- SubConcept from src/application.py. -/
structure SubConcept where
  sub_concept_name : String
  description : String
  examples : List String
  distractor : List String
deriving DecidableEq, Repr

/-- Concept from src/application.py. -/
structure Concept where
  concept_name : String
  description : String
  sub_concepts : Option (List SubConcept)
deriving DecidableEq, Repr

/-- One entry of the memory list of an Iterator, appended per evaluated turn in the
websocket loop of src/app/routers/viva_router.py (lines 98-103): the raw
(non-aggregated) score of the turn together with question, answer and the
error category. -/
structure TurnRecord where
  question : String
  answer : String
  score : EvaluationOutput
  error_type : String
deriving DecidableEq, Repr

/-- Iterator from src/application.py: the per-concept session state. -/
structure Iterator where
  concept : Concept
  score : EvaluationOutput
  memory : List TurnRecord
  next_step : String
  turn_count : ℕ
deriving DecidableEq, Repr

namespace Services

/-- viva_router from src/app/services.py lines 83-134: the next-step policy
(NextStepPolicy.decide of the spec). A strict ordered if/else-if chain:
the hard cap turn_count > 2 is checked first, then the mastery
short-circuit, then the per-category remediation branches, then the
default branch. -/
def viva_router (error : String) (correctness depth clarity : ℚ)
    (turn_count : ℕ) : String :=
  if turn_count > 2 then "Move On"
  else if error = "no error" ∧ correctness > 8 ∧ depth > 8 ∧ clarity > 8 then
    if turn_count ≥ 2 then "Move On"
    else "Ask one slightly deeper or application-oriented question on this concept."
  else if error = "factual" ∧ correctness < 6 then
    if turn_count = 1 then
      "Ask another question focused on the same factual point, but phrase it differently."
    else "Move On"
  else if error = "procedural" ∧ correctness < 6 then
    if turn_count = 1 then
      "Generate a question that tests the same procedure in a slightly different, more step-by-step way."
    else "Move On"
  else if error = "application" ∧ depth < 6 then
    if turn_count = 1 then
      "Provide a simple real-world example that demonstrates the application of this concept, then ask a follow-up question about it."
    else "Move On"
  else if error = "reasoning" then
    if turn_count = 1 then
      "Ask a \x27why\x27 or \x27how\x27 question about the reasoning behind the previous answer."
    else "Move On"
  else if error = "conceptual" ∧ depth < 6 then
    if turn_count = 1 then
      "Ask a foundational question that breaks the concept into simpler parts. Include analogies if useful."
    else "Move On"
  else if error = "communication/articulation" ∧ clarity < 6 then
    if turn_count = 1 then
      "Ask the student to explain the same answer again in clearer or simpler terms."
    else "Move On"
  else if error = "metacognitive" then
    if turn_count = 1 then
      "Ask the student how they arrived at the answer or what strategy they used."
    else "Move On"
  else
    if turn_count = 1 then "Test this concept using a different question/approach."
    else "Move On"

end Services

/-- The error categories the policy chain of src/app/services.py matches on
(the closed ErrorCategory set of the spec, spelled as in the code: the
spec category no_error is the string literal "no error" and the spec category
communication is "communication/articulation"). -/
def knownErrorCategories : List String :=
  ["conceptual", "procedural", "factual", "application", "reasoning",
   "communication/articulation", "metacognitive", "no error"]

namespace ScoreAggregator

/-- The per-field running-mean update of
src/app/routers/viva_router.py lines 93-95 (ScoreAggregator.update of the
spec, one field): new = ((current * (turn_count - 1)) + incoming) / turn_count,
where turn_count is the pre-update turn count. -/
def update1 (current : ℚ) (turn_count : ℕ) (incoming : ℚ) : ℚ :=
  (current * ((turn_count : ℚ) - 1) + incoming) / (turn_count : ℚ)

/-- The running-mean update applied to all three fields, exactly as the
three assignments of src/app/routers/viva_router.py lines 93-95. -/
def update (current : EvaluationOutput) (turn_count : ℕ)
    (incoming : EvaluationOutput) : EvaluationOutput :=
  { correctness := update1 current.correctness turn_count incoming.correctness
    depth := update1 current.depth turn_count incoming.depth
    clarity := update1 current.clarity turn_count incoming.clarity }

/-- The accumulate-then-divide per-field update of src/application.py
lines 499-504: score += incoming; score /= turn_count. -/
def update_acc1 (current : ℚ) (turn_count : ℕ) (incoming : ℚ) : ℚ :=
  (current + incoming) / (turn_count : ℚ)

/-- The accumulate-then-divide update applied to all three fields, exactly
as src/application.py lines 499-504. -/
def update_acc (current : EvaluationOutput) (turn_count : ℕ)
    (incoming : EvaluationOutput) : EvaluationOutput :=
  { correctness := update_acc1 current.correctness turn_count incoming.correctness
    depth := update_acc1 current.depth turn_count incoming.depth
    clarity := update_acc1 current.clarity turn_count incoming.clarity }

/-- Sequential application of a per-field update along a list of incoming
scores, passing the pre-update turn counts k, k+1, ... (the loop increments
turn_count once per completed turn). -/
def foldScores (upd : ℚ → ℕ → ℚ → ℚ) : ℚ → ℕ → List ℚ → ℚ
  | current, _, [] => current
  | current, turn_count, x :: rest =>
      foldScores upd (upd current turn_count x) (turn_count + 1) rest

/-- Sequential application of a triple update along a list of incoming
score triples, passing the pre-update turn counts k, k+1, ... . -/
def foldTriples
    (upd : EvaluationOutput → ℕ → EvaluationOutput → EvaluationOutput) :
    EvaluationOutput → ℕ → List EvaluationOutput → EvaluationOutput
  | current, _, [] => current
  | current, turn_count, x :: rest =>
      foldTriples upd (upd current turn_count x) (turn_count + 1) rest

end ScoreAggregator

/-- A score triple whose three fields all lie in the closed range [1, 10]
(the range of the scores the evaluator emits, and the claimed invariant range of
the aggregated running mean). -/
def inRange (x : EvaluationOutput) : Prop :=
  1 ≤ x.correctness ∧ x.correctness ≤ 10 ∧
  1 ≤ x.depth ∧ x.depth ≤ 10 ∧
  1 ≤ x.clarity ∧ x.clarity ≤ 10

instance (x : EvaluationOutput) : Decidable (inRange x) := by
  unfold inRange; infer_instance

/-- The result of invoking the evaluation capability on one turn
(EvaluateVivaAnswer of src/application.py: score, error_type, plus the
chain-of-thought reasoning text the loop echoes back). -/
structure EvalTurn where
  score : EvaluationOutput
  error_type : String
  reasoning : String
deriving DecidableEq, Repr

/-- The oracle inputs of one loop turn of the websocket endpoint of
src/app/routers/viva_router.py: the generated question text, the
transcription of the received audio, and the evaluation result the
evaluation capability would return for that question and answer. -/
structure TurnInput where
  question : String
  transcription : String
  eval : EvalTurn
deriving DecidableEq, Repr

/-- One evaluated turn of the loop body of src/app/routers/viva_router.py
lines 87-124, with the order of effects of the source: aggregate the incoming
score into the running mean with the pre-update turn count (lines 93-95),
append the TurnRecord with the raw incoming score (lines 98-103), compute
the next step from the aggregated score and the pre-increment turn count
(lines 115-121), then increment turn_count (line 124). -/
def doTurn (s : Iterator) (inp : TurnInput) : Iterator :=
  let newScore := ScoreAggregator.update s.score s.turn_count inp.eval.score
  { s with
    score := newScore
    memory := s.memory ++
      [{ question := inp.question, answer := inp.transcription,
         score := inp.eval.score, error_type := inp.eval.error_type }]
    next_step := Services.viva_router inp.eval.error_type newScore.correctness
      newScore.depth newScore.clarity s.turn_count
    turn_count := s.turn_count + 1 }

/-- What one per-concept while loop of src/app/routers/viva_router.py
produced: the final session state, how many questions were generated and
sent, how many evaluation calls were made, and whether the loop ended
through its own turn_count > 3 break (line 125-126) rather than through
the while condition or the exit sentinel. -/
structure RunResult where
  state : Iterator
  questions_sent : ℕ
  evals_done : ℕ
  cap_break : Bool
deriving DecidableEq, Repr

/-- The per-concept while loop of src/app/routers/viva_router.py
lines 66-126 over an oracle trace of turn inputs: while next_step is not
"Move On", generate and send a question, receive and transcribe the
answer; a transcription equal to "exit" breaks out at once (lines 83-84,
before any evaluation); otherwise evaluate, run the per-turn updates
(doTurn) and break when the incremented turn_count exceeds 3. An
exhausted oracle ends the run (the real loop would block awaiting the
client). -/
def runSession (inputs : List TurnInput) (s : Iterator) : RunResult :=
  if s.next_step = "Move On" then ⟨s, 0, 0, false⟩
  else
    match inputs with
    | [] => ⟨s, 0, 0, false⟩
    | inp :: rest =>
      if inp.transcription = "exit" then ⟨s, 1, 0, false⟩
      else
        let s2 := doTurn s inp
        if s2.turn_count > 3 then ⟨s2, 1, 1, true⟩
        else
          let r := runSession rest s2
          ⟨r.state, r.questions_sent + 1, r.evals_done + 1, r.cap_break⟩

/-- The initial per-concept state built at src/app/routers/viva_router.py
lines 56-62: zero sentinel score, empty memory, next_step "none",
turn_count 1. -/
def initIterator (c : Concept) : Iterator :=
  { concept := c
    score := { correctness := 0, depth := 0, clarity := 0 }
    memory := []
    next_step := "none"
    turn_count := 1 }

/-- The truthy content of the structured chapter summary: its list of
concepts (src/app/routers/viva_router.py line 43 reads the "concepts"
key). A falsy lookup result (the empty dict get_chapter_structured_summary
of src/app/services.py returns when no row matches) is modelled as
Option.none. -/
structure ChapterSummary where
  concepts : List Concept
deriving DecidableEq, Repr

/-- What one chapter request of the websocket endpoint produced: the
structured error message sent, if any; the per-concept session results;
and the final feedback payload (the concept-name-to-score mapping and the
synthesized narrative), if one was sent. -/
structure RequestResult where
  error_sent : Option String
  session_results : List RunResult
  feedback_sent : Option (List (String × EvaluationOutput) × String)
deriving DecidableEq, Repr

/-- One iteration of the outer request loop of
src/app/routers/viva_router.py lines 28-140: if the chapter lookup result
is falsy, send the structured error and continue without starting any
session (lines 37-39); otherwise build one Iterator per concept, run each
concept session in order against its oracle trace, assemble the
scores dict keyed by concept name, and send the final feedback built from
the feedback-synthesis oracle text. -/
def handleChapterRequest (lookup : Option ChapterSummary)
    (oracles : List (List TurnInput)) (feedback_text : String) : RequestResult :=
  match lookup with
  | none => ⟨some "Chapter not found", [], none⟩
  | some cs =>
    let results := List.zipWith (fun c ins => runSession ins (initIterator c))
      cs.concepts oracles
    let scores_dict := results.map fun r =>
      (r.state.concept.concept_name, r.state.score)
    ⟨none, results, some (scores_dict, feedback_text)⟩

/-! Helper lemmas about the running-mean recurrence, the policy chain and
the per-concept loop. -/

lemma foldScores_update1_mul (xs : List ℚ) : ∀ (k : ℕ) (cur : ℚ),
    ScoreAggregator.foldScores ScoreAggregator.update1 cur (k + 1) xs *
      ((k : ℚ) + xs.length) = cur * k + xs.sum := by
  induction xs with
  | nil => intro k cur; simp [ScoreAggregator.foldScores]
  | cons x t ih =>
    intro k cur
    have h1 : ((k : ℚ) + 1) ≠ 0 := by positivity
    have h2 := ih (k + 1) (ScoreAggregator.update1 cur (k + 1) x)
    push_cast at h2
    simp only [ScoreAggregator.foldScores, List.length_cons, List.sum_cons]
    push_cast
    calc ScoreAggregator.foldScores ScoreAggregator.update1
          (ScoreAggregator.update1 cur (k + 1) x) (k + 1 + 1) t *
          ((k : ℚ) + (↑t.length + 1))
        = ScoreAggregator.foldScores ScoreAggregator.update1
            (ScoreAggregator.update1 cur (k + 1) x) (k + 1 + 1) t *
            (((k : ℚ) + 1) + ↑t.length) := by ring_nf
      _ = ScoreAggregator.update1 cur (k + 1) x * ((k : ℚ) + 1) + t.sum := h2
      _ = cur * k + (x + t.sum) := by
          rw [ScoreAggregator.update1]
          push_cast
          rw [div_mul_cancel₀ _ h1]
          ring

lemma foldScores_update1_mean (xs : List ℚ) (h : xs ≠ []) :
    ScoreAggregator.foldScores ScoreAggregator.update1 0 1 xs =
      xs.sum / xs.length := by
  have hlen : (0:ℚ) < (xs.length : ℚ) := by
    have : 0 < xs.length := List.length_pos.mpr h
    exact_mod_cast this
  have hmul := foldScores_update1_mul xs 0 0
  simp only [Nat.cast_zero, zero_add, zero_mul] at hmul
  rw [eq_div_iff (ne_of_gt hlen)]
  simpa using hmul

lemma foldTriples_update_eq (xs : List Evater.EvaluationOutput) :
    ∀ (k : ℕ) (cur : Evater.EvaluationOutput),
    ScoreAggregator.foldTriples ScoreAggregator.update cur k xs =
      { correctness := ScoreAggregator.foldScores ScoreAggregator.update1
          cur.correctness k (xs.map EvaluationOutput.correctness)
        depth := ScoreAggregator.foldScores ScoreAggregator.update1
          cur.depth k (xs.map EvaluationOutput.depth)
        clarity := ScoreAggregator.foldScores ScoreAggregator.update1
          cur.clarity k (xs.map EvaluationOutput.clarity) } := by
  induction xs with
  | nil =>
    intro k cur
    simp [ScoreAggregator.foldTriples, ScoreAggregator.foldScores]
  | cons x t ih =>
    intro k cur
    simp only [ScoreAggregator.foldTriples, List.map_cons,
      ScoreAggregator.foldScores]
    rw [ih]
    rfl

lemma length_le_sum (xs : List ℚ) (h : ∀ x ∈ xs, 1 ≤ x) :
    (xs.length : ℚ) ≤ xs.sum := by
  induction xs with
  | nil => simp
  | cons x t ih =>
    simp only [List.length_cons, List.sum_cons]
    push_cast
    have hx : 1 ≤ x := h x (List.mem_cons_self x t)
    have ht := ih fun y hy => h y (List.mem_cons_of_mem x hy)
    linarith

lemma sum_le_ten_mul (xs : List ℚ) (h : ∀ x ∈ xs, x ≤ 10) :
    xs.sum ≤ 10 * xs.length := by
  induction xs with
  | nil => simp
  | cons x t ih =>
    simp only [List.length_cons, List.sum_cons]
    push_cast
    have hx : x ≤ 10 := h x (List.mem_cons_self x t)
    have ht := ih fun y hy => h y (List.mem_cons_of_mem x hy)
    linarith

lemma mean_bounds (xs : List ℚ) (h : xs ≠ []) (h1 : ∀ x ∈ xs, 1 ≤ x)
    (h2 : ∀ x ∈ xs, x ≤ 10) :
    1 ≤ xs.sum / xs.length ∧ xs.sum / xs.length ≤ 10 := by
  have hlen : (0:ℚ) < (xs.length : ℚ) := by
    have : 0 < xs.length := List.length_pos.mpr h
    exact_mod_cast this
  constructor
  · rw [le_div_iff₀ hlen]
    simpa using length_le_sum xs h1
  · rw [div_le_iff₀ hlen]
    simpa [mul_comm] using sum_le_ten_mul xs h2

lemma foldTriples_update_mean (xs : List Evater.EvaluationOutput) (h : xs ≠ []) :
    ScoreAggregator.foldTriples ScoreAggregator.update
        { correctness := 0, depth := 0, clarity := 0 } 1 xs =
      { correctness := (xs.map EvaluationOutput.correctness).sum / xs.length
        depth := (xs.map EvaluationOutput.depth).sum / xs.length
        clarity := (xs.map EvaluationOutput.clarity).sum / xs.length } := by
  rw [foldTriples_update_eq]
  rw [foldScores_update1_mean _ (by simpa using h),
    foldScores_update1_mean _ (by simpa using h),
    foldScores_update1_mean _ (by simpa using h)]
  simp

lemma viva_router_moveOn_at_two (error : String)
    (correctness depth clarity : ℚ) :
    Services.viva_router error correctness depth clarity 2 = "Move On" := by
  simp [Services.viva_router]

lemma runSession_nil (s : Iterator) : runSession [] s = ⟨s, 0, 0, false⟩ := by
  simp [runSession]

lemma runSession_moveOn (inputs : List TurnInput) (s : Iterator)
    (h : s.next_step = "Move On") : runSession inputs s = ⟨s, 0, 0, false⟩ := by
  cases inputs <;> simp [runSession, h]

lemma doTurn_turn_count (s : Iterator) (inp : TurnInput) :
    (doTurn s inp).turn_count = s.turn_count + 1 := rfl

lemma doTurn_next_step (s : Iterator) (inp : TurnInput) :
    (doTurn s inp).next_step =
      Services.viva_router inp.eval.error_type
        (ScoreAggregator.update s.score s.turn_count inp.eval.score).correctness
        (ScoreAggregator.update s.score s.turn_count inp.eval.score).depth
        (ScoreAggregator.update s.score s.turn_count inp.eval.score).clarity
        s.turn_count := rfl

lemma runSession_bounded (inputs : List TurnInput) : ∀ s : Iterator,
    s.turn_count = 1 ∨ s.turn_count = 2 →
    (runSession inputs s).evals_done + s.turn_count ≤ 3 ∧
    (runSession inputs s).cap_break = false := by
  induction inputs with
  | nil =>
    intro s hs
    rw [runSession_nil]
    exact ⟨by simp only []; omega, rfl⟩
  | cons inp rest ih =>
    intro s hs
    by_cases hm : s.next_step = "Move On"
    · rw [runSession_moveOn _ _ hm]
      exact ⟨by simp only []; omega, rfl⟩
    · by_cases he : inp.transcription = "exit"
      · have hx : runSession (inp :: rest) s = ⟨s, 1, 0, false⟩ := by
          simp [runSession, hm, he]
        rw [hx]
        exact ⟨by simp only []; omega, rfl⟩
      · have hcap : ¬ ((doTurn s inp).turn_count > 3) := by
          rw [doTurn_turn_count]
          omega
        have hrun : runSession (inp :: rest) s =
            ⟨(runSession rest (doTurn s inp)).state,
              (runSession rest (doTurn s inp)).questions_sent + 1,
              (runSession rest (doTurn s inp)).evals_done + 1,
              (runSession rest (doTurn s inp)).cap_break⟩ := by
          simp [runSession, hm, he, hcap]
        rcases hs with h1 | h2
        · have hih := ih (doTurn s inp) (Or.inr (by rw [doTurn_turn_count, h1]))
          rw [doTurn_turn_count, h1] at hih
          rw [hrun, h1]
          exact ⟨by simp only []; omega, by simpa using hih.2⟩
        · have hmo : (doTurn s inp).next_step = "Move On" := by
            rw [doTurn_next_step, h2]
            exact viva_router_moveOn_at_two _ _ _ _
          rw [hrun, runSession_moveOn rest _ hmo, h2]
          exact ⟨by simp only []; omega, rfl⟩

/-! The claims. -/

/-- C1: for every error category and every score triple, turn_count > 2
(more than 2 completed turns, the hard cap) makes the next-step policy
viva_router of src/app/services.py return the terminal directive
"Move On", regardless of every other branch of the chain: the hard-cap
check is first and takes priority. -/
theorem hard_cap_forces_move_on (error : String)
    (correctness depth clarity : ℚ) (turn_count : ℕ) (h : turn_count > 2) :
    Services.viva_router error correctness depth clarity turn_count =
      "Move On" := by
  unfold Services.viva_router
  rw [if_pos h]

theorem hard_cap_forces_move_on_witness :
    Services.viva_router "factual" 4 4 4 3 = "Move On" :=
  hard_cap_forces_move_on "factual" 4 4 4 3 (by decide)

/-- C2: for every nonempty sequence of incoming score triples with all
fields in [1, 10], applying the running-mean update
new = ((current * (turn_count - 1)) + incoming) / turn_count sequentially,
starting from the zero sentinel triple and passing the pre-update turn
counts 1, 2, ..., n, yields in each field exactly the arithmetic mean of
the n incoming values. -/
theorem running_mean_exact (xs : List EvaluationOutput) (h : xs ≠ [])
    (hb : ∀ x ∈ xs, inRange x) :
    ScoreAggregator.foldTriples ScoreAggregator.update
        { correctness := 0, depth := 0, clarity := 0 } 1 xs =
      { correctness := (xs.map EvaluationOutput.correctness).sum / xs.length
        depth := (xs.map EvaluationOutput.depth).sum / xs.length
        clarity := (xs.map EvaluationOutput.clarity).sum / xs.length } :=
  foldTriples_update_mean xs h

theorem running_mean_exact_witness :
    (([⟨2,3,4⟩, ⟨4,5,6⟩] : List EvaluationOutput) ≠ [] ∧
      ∀ x ∈ ([⟨2,3,4⟩, ⟨4,5,6⟩] : List EvaluationOutput), inRange x) ∧
    ScoreAggregator.foldTriples ScoreAggregator.update
        { correctness := 0, depth := 0, clarity := 0 } 1
        ([⟨2,3,4⟩, ⟨4,5,6⟩] : List EvaluationOutput) =
      { correctness := (([⟨2,3,4⟩, ⟨4,5,6⟩] : List EvaluationOutput).map
          EvaluationOutput.correctness).sum /
          ([⟨2,3,4⟩, ⟨4,5,6⟩] : List EvaluationOutput).length
        depth := (([⟨2,3,4⟩, ⟨4,5,6⟩] : List EvaluationOutput).map
          EvaluationOutput.depth).sum /
          ([⟨2,3,4⟩, ⟨4,5,6⟩] : List EvaluationOutput).length
        clarity := (([⟨2,3,4⟩, ⟨4,5,6⟩] : List EvaluationOutput).map
          EvaluationOutput.clarity).sum /
          ([⟨2,3,4⟩, ⟨4,5,6⟩] : List EvaluationOutput).length } :=
  ⟨⟨by decide, by decide⟩, running_mean_exact _ (by decide) (by decide)⟩

/-- C3: the accumulate-then-divide aggregation of src/application.py
(score += incoming; score /= turn_count) coincides with the running-mean
formula of src/app/routers/viva_router.py on every sequence of at most 2
turns, and there is a sequence of three score triples with fields in
[1, 10] on which the two variants disagree. -/
theorem acc_variant_agrees_then_diverges :
    (∀ xs : List EvaluationOutput, xs.length ≤ 2 →
      ScoreAggregator.foldTriples ScoreAggregator.update_acc
          { correctness := 0, depth := 0, clarity := 0 } 1 xs =
        ScoreAggregator.foldTriples ScoreAggregator.update
          { correctness := 0, depth := 0, clarity := 0 } 1 xs) ∧
    (∃ xs : List EvaluationOutput, xs.length = 3 ∧ (∀ x ∈ xs, inRange x) ∧
      ScoreAggregator.foldTriples ScoreAggregator.update_acc
          { correctness := 0, depth := 0, clarity := 0 } 1 xs ≠
        ScoreAggregator.foldTriples ScoreAggregator.update
          { correctness := 0, depth := 0, clarity := 0 } 1 xs) := by
  constructor
  · intro xs h
    rcases xs with _ | ⟨a, _ | ⟨b, _ | ⟨c, t⟩⟩⟩
    · rfl
    · simp only [ScoreAggregator.foldTriples, ScoreAggregator.update,
        ScoreAggregator.update_acc, ScoreAggregator.update1,
        ScoreAggregator.update_acc1]
      push_cast
      simp only [EvaluationOutput.mk.injEq]
      refine ⟨by ring, by ring, by ring⟩
    · simp only [ScoreAggregator.foldTriples, ScoreAggregator.update,
        ScoreAggregator.update_acc, ScoreAggregator.update1,
        ScoreAggregator.update_acc1]
      push_cast
      simp only [EvaluationOutput.mk.injEq]
      refine ⟨by ring, by ring, by ring⟩
    · simp at h
  · refine ⟨[⟨2,2,2⟩, ⟨2,2,2⟩, ⟨8,8,8⟩], by decide, by decide, ?_⟩
    simp only [ScoreAggregator.foldTriples, ScoreAggregator.update,
      ScoreAggregator.update_acc, ScoreAggregator.update1,
      ScoreAggregator.update_acc1, ne_eq, EvaluationOutput.mk.injEq, not_and]
    intro hcon
    push_cast at hcon
    norm_num at hcon

/-- C4: for the error category factual with correctness < 6, the policy of
src/app/services.py issues the rephrase-same-factual-point directive at
turn_count = 1 and returns "Move On" with the same error and scores at
turn_count = 2: remediate once, then advance. -/
theorem factual_remediate_once_then_advance (correctness depth clarity : ℚ)
    (h : correctness < 6) :
    Services.viva_router "factual" correctness depth clarity 1 =
      "Ask another question focused on the same factual point, but phrase it differently." ∧
    Services.viva_router "factual" correctness depth clarity 2 = "Move On" := by
  constructor <;> simp [Services.viva_router, h]

theorem factual_remediate_once_then_advance_witness :
    Services.viva_router "factual" 4 4 4 1 =
      "Ask another question focused on the same factual point, but phrase it differently." ∧
    Services.viva_router "factual" 4 4 4 2 = "Move On" :=
  factual_remediate_once_then_advance 4 4 4 (by norm_num)

/-- C5: with error category "no error" and correctness, depth and clarity
all above 8, the policy of src/app/services.py returns "Move On" for every
turn_count of at least 2 (in particular at scores 9, 9, 9 and
turn_count = 2, as the witness instantiates), and at turn_count = 1 issues
the go-deeper directive steering toward a deeper or application-oriented
question. -/
theorem mastery_short_circuit (correctness depth clarity : ℚ)
    (turn_count : ℕ) (hc : correctness > 8) (hd : depth > 8)
    (hcl : clarity > 8) :
    (2 ≤ turn_count →
      Services.viva_router "no error" correctness depth clarity turn_count =
        "Move On") ∧
    (turn_count = 1 →
      Services.viva_router "no error" correctness depth clarity turn_count =
        "Ask one slightly deeper or application-oriented question on this concept.") := by
  constructor
  · intro h2
    by_cases h3 : turn_count > 2
    · simp [Services.viva_router, h3]
    · simp [Services.viva_router, h3, h2, hc, hd, hcl]
  · intro h1
    subst h1
    simp [Services.viva_router, hc, hd, hcl]

theorem mastery_short_circuit_witness :
    Services.viva_router "no error" 9 9 9 2 = "Move On" :=
  (mastery_short_circuit 9 9 9 2 (by norm_num) (by norm_num)
    (by norm_num)).1 (by norm_num)

/-- C6: starting from the sentinel triple (0,0,0), for every sequence of
incoming score triples with fields in [1, 10] and every prefix length k
with 1 <= k <= n, the aggregated triple after the first k scored turns
holds in each field the running mean over exactly those k turns, and each
field lies in [1, 10]: never negative, never above 10. -/
theorem running_mean_invariant (xs : List EvaluationOutput)
    (hb : ∀ x ∈ xs, inRange x) (k : ℕ) (hk1 : 1 ≤ k) (hk2 : k ≤ xs.length) :
    ScoreAggregator.foldTriples ScoreAggregator.update
        { correctness := 0, depth := 0, clarity := 0 } 1 (xs.take k) =
      { correctness := ((xs.take k).map EvaluationOutput.correctness).sum / k
        depth := ((xs.take k).map EvaluationOutput.depth).sum / k
        clarity := ((xs.take k).map EvaluationOutput.clarity).sum / k } ∧
    inRange (ScoreAggregator.foldTriples ScoreAggregator.update
      { correctness := 0, depth := 0, clarity := 0 } 1 (xs.take k)) := by
  have hlen : (xs.take k).length = k := by
    rw [List.length_take]
    omega
  have hne : xs.take k ≠ [] := by
    intro hnil
    rw [hnil] at hlen
    simp at hlen
    omega
  have hbp : ∀ x ∈ xs.take k, inRange x := fun x hx =>
    hb x (List.take_subset k xs hx)
  have hmean := foldTriples_update_mean (xs.take k) hne
  rw [hlen] at hmean
  refine ⟨hmean, ?_⟩
  rw [hmean]
  have bc := mean_bounds ((xs.take k).map EvaluationOutput.correctness)
    (by simpa using hne)
    (by intro y hy; simp only [List.mem_map] at hy
        obtain ⟨x, hx, rfl⟩ := hy; exact (hbp x hx).1)
    (by intro y hy; simp only [List.mem_map] at hy
        obtain ⟨x, hx, rfl⟩ := hy; exact (hbp x hx).2.1)
  have bd := mean_bounds ((xs.take k).map EvaluationOutput.depth)
    (by simpa using hne)
    (by intro y hy; simp only [List.mem_map] at hy
        obtain ⟨x, hx, rfl⟩ := hy; exact (hbp x hx).2.2.1)
    (by intro y hy; simp only [List.mem_map] at hy
        obtain ⟨x, hx, rfl⟩ := hy; exact (hbp x hx).2.2.2.1)
  have bcl := mean_bounds ((xs.take k).map EvaluationOutput.clarity)
    (by simpa using hne)
    (by intro y hy; simp only [List.mem_map] at hy
        obtain ⟨x, hx, rfl⟩ := hy; exact (hbp x hx).2.2.2.2.1)
    (by intro y hy; simp only [List.mem_map] at hy
        obtain ⟨x, hx, rfl⟩ := hy; exact (hbp x hx).2.2.2.2.2)
  simp only [List.length_map, hlen] at bc bd bcl
  exact ⟨bc.1, bc.2, bd.1, bd.2, bcl.1, bcl.2⟩

theorem running_mean_invariant_witness :
    (∀ x ∈ ([⟨2,3,4⟩, ⟨4,5,6⟩] : List EvaluationOutput), inRange x) ∧
    (1 ≤ (1:ℕ) ∧ 1 ≤ ([⟨2,3,4⟩, ⟨4,5,6⟩] : List EvaluationOutput).length) ∧
    (ScoreAggregator.foldTriples ScoreAggregator.update
        { correctness := 0, depth := 0, clarity := 0 } 1
        (([⟨2,3,4⟩, ⟨4,5,6⟩] : List EvaluationOutput).take 1) =
      { correctness := ((([⟨2,3,4⟩, ⟨4,5,6⟩] : List EvaluationOutput).take 1).map
          EvaluationOutput.correctness).sum / (1:ℕ)
        depth := ((([⟨2,3,4⟩, ⟨4,5,6⟩] : List EvaluationOutput).take 1).map
          EvaluationOutput.depth).sum / (1:ℕ)
        clarity := ((([⟨2,3,4⟩, ⟨4,5,6⟩] : List EvaluationOutput).take 1).map
          EvaluationOutput.clarity).sum / (1:ℕ) } ∧
    inRange (ScoreAggregator.foldTriples ScoreAggregator.update
      { correctness := 0, depth := 0, clarity := 0 } 1
      (([⟨2,3,4⟩, ⟨4,5,6⟩] : List EvaluationOutput).take 1))) :=
  ⟨by decide, ⟨by decide, by decide⟩,
    running_mean_invariant _ (by decide) 1 (by decide) (by decide)⟩

/-- C7: in the per-concept loop of src/app/routers/viva_router.py, when a
transcription equals the reserved sentinel "exit" the concept session
terminates immediately: the evaluation capability is not invoked for that
turn or any later one (evals_done = 0), the state is returned unchanged
(no score update, no TurnRecord append, no turn_count increment), only
the already-sent question of the exiting turn was generated
(questions_sent = 1), and no further question is generated for the
concept. -/
theorem exit_sentinel_terminates (s : Iterator) (q : String) (ev : EvalTurn)
    (rest : List TurnInput) (h : s.next_step ≠ "Move On") :
    runSession ({ question := q, transcription := "exit", eval := ev } :: rest)
        s = ⟨s, 1, 0, false⟩ := by
  simp [runSession, h]

theorem exit_sentinel_terminates_witness :
    runSession [⟨"q1", "exit", ⟨⟨5, 5, 5⟩, "factual", "r"⟩⟩]
        (initIterator ⟨"c", "d", none⟩) =
      ⟨initIterator ⟨"c", "d", none⟩, 1, 0, false⟩ :=
  exit_sentinel_terminates _ "q1" ⟨⟨5, 5, 5⟩, "factual", "r"⟩ [] (by decide)

/-- C8: when the chapter lookup comes back empty (no concepts for the
requested chapter, grade and subject), the request handler of
src/app/routers/viva_router.py sends the structured error message
"Chapter not found" and starts no concept session: no session result, so
no question is generated and no turn executed, and no feedback report is
produced for the request. -/
theorem chapter_not_found_no_session (oracles : List (List TurnInput))
    (feedback_text : String) :
    handleChapterRequest none oracles feedback_text =
      ⟨some "Chapter not found", [], none⟩ := rfl

/-- C9 counterexample: the error category "careless" lies outside the
fixed closed category set, yet viva_router of src/app/services.py does
not fail: it silently returns the generic default directive. This refutes
the claim that an unknown category makes the policy signal a programming
error. -/
theorem unknown_category_gets_default_directive :
    "careless" ∉ knownErrorCategories ∧
    Services.viva_router "careless" 5 5 5 1 =
      "Test this concept using a different question/approach." := by
  constructor
  · decide
  · decide

/-- C9 amended: for every input whose error category lies outside the
fixed closed set, the policy of src/app/services.py does not fail fast:
it falls through to the default else branch, silently returning the
generic alternate-approach directive at turn_count = 1 and "Move On" at
every other turn count. -/
theorem unknown_category_silently_defaults (error : String)
    (correctness depth clarity : ℚ) (turn_count : ℕ)
    (h : error ∉ knownErrorCategories) :
    Services.viva_router error correctness depth clarity turn_count =
      if turn_count = 1 then "Test this concept using a different question/approach."
      else "Move On" := by
  simp only [knownErrorCategories, List.mem_cons, List.mem_singleton,
    not_or] at h
  obtain ⟨hco, hp, hf, ha, hr, hcm, hm, hn⟩ := h
  simp only [Services.viva_router, hco, hp, hf, ha, hr, hcm, hm, hn,
    false_and, if_false]
  split_ifs <;> first | rfl | omega

theorem unknown_category_silently_defaults_witness :
    Services.viva_router "careless" 5 5 5 1 =
      if (1 : ℕ) = 1 then "Test this concept using a different question/approach."
      else "Move On" :=
  unknown_category_silently_defaults "careless" 5 5 5 1 (by decide)

/-- C10: the policy of src/app/services.py returns "Move On" at
turn_count = 2 in every branch, for every error category and every score
triple; consequently every per-concept loop started from the initial
state (next_step "none", turn_count 1) performs at most 2 evaluated
turns and never reaches the turn_count > 3 break of the loop itself. -/
theorem policy_ends_concepts_within_two_turns :
    (∀ (error : String) (correctness depth clarity : ℚ),
      Services.viva_router error correctness depth clarity 2 = "Move On") ∧
    (∀ (c : Concept) (inputs : List TurnInput),
      (runSession inputs (initIterator c)).evals_done ≤ 2 ∧
      (runSession inputs (initIterator c)).cap_break = false) := by
  constructor
  · exact viva_router_moveOn_at_two
  · intro c inputs
    have h := runSession_bounded inputs (initIterator c) (Or.inl rfl)
    have h1 : (initIterator c).turn_count = 1 := rfl
    rw [h1] at h
    exact ⟨by omega, h.2⟩

end Evater
